import Mathlib

/-!
Verification development for the mc-server-manager daemon.

Shallow embedding of the daemon's control plane: the subscription manager
(src/daemon/event.rs), the log-derived state machine (src/daemon/basic_log.rs,
src/daemon/mod.rs), the unit record (src/bin/mcmand.rs, DaemonServer), the
dispatcher's send/cleanup logic and connection acceptor (src/bin/mcmand.rs),
the update pipeline's up-to-date check (src/ipc/update.rs) and the unit
directory scan (src/config/mod.rs).

External collaborators (the semver crate, the TOML codec, the filesystem and
process APIs) are modelled at the value level: versions as numeric
major/minor/patch plus a list of numeric build identifiers (prerelease
identifiers are not used by this repository's version data), a written TOML
document by the structured data it parses back to, directory entries by the
observations the scan makes of them, and a child process by the outcome its
next try_wait poll would report.
-/

set_option autoImplicit false

namespace Mcman

/-- Model of `semver::Version` as used by this repository: numeric
major/minor/patch and a list of numeric build identifiers
(`Identifier::Numeric`; the paper repository only ever pushes numeric build
identifiers, see src/repo/paper.rs). -/
structure SemVer where
  major : Nat
  minor : Nat
  patch : Nat
  build : List Nat
  deriving DecidableEq

/-- Strict order on versions: lexicographic on (major, minor, patch).
Build metadata does not participate in precedence (semver crate contract);
prerelease identifiers do not occur in this repository's data. -/
def verLt (a b : SemVer) : Bool :=
  if a.major ≠ b.major then decide (a.major < b.major)
  else if a.minor ≠ b.minor then decide (a.minor < b.minor)
  else decide (a.patch < b.patch)

/-- `a >= b` on versions, the comparison used by
`PaperServerUpdater::update_server` (src/ipc/update.rs:99). -/
def verGe (a b : SemVer) : Bool :=
  !(verLt a b)

/-- `UnitConfig` from src/config/mod.rs (the `type` TOML key is
`unit_type` in the struct). -/
structure UnitConfig where
  id : String
  unit_type : String
  deriving DecidableEq

/-- `ServerConfig` from src/config/mod.rs; `path` (a `Box<Path>`) is
modelled as its string form. -/
structure ServerConfig where
  name : String
  path : String
  type_name : String
  jar : String
  version : SemVer
  memory : Nat
  deriving DecidableEq

/-- `ServerUnitConfig` from src/config/mod.rs: the on-disk unit file form. -/
structure ServerUnitConfig where
  unit : UnitConfig
  server : ServerConfig
  deriving DecidableEq

/-- `ServerEventType` from src/ipc/mod.rs. -/
inductive ServerEventType
  | ServerStarting
  | ServerStarted
  | ServerStopping
  | ServerStopped
  | ActionProgress
  | InstallationComplete
  | InstallationFailed
  | UpdateComplete
  | UpdateFailed
  deriving DecidableEq

/-- `ServerEvent` from src/ipc/mod.rs. The `serverFailed` variant is the
`ServerEvent::ServerFailed { server_id, error }` value constructed by
src/daemon/basic_log.rs:132 and matched by src/bin/mcman.rs (the snapshot of
src/ipc/mod.rs in the repository predates that variant). -/
inductive ServerEvent
  | serverStarting (server_id : String)
  | serverStarted (server_id : String)
  | serverStopping (server_id : String)
  | serverStopped (server_id : String)
  | serverFailed (server_id : String) (error : String)
  | actionProgress (server_id : String) (action : String)
      (progress maximum : Option Nat) (action_number : Nat)
  | installationComplete (server_id : String)
  | installationFailed (server_id : String) (error : String)
  | updateComplete (server_id : String)
  | updateFailed (server_id : String) (error : String)
  deriving DecidableEq

/-- The subscription table of `EventManager`
(src/daemon/event.rs:16): `HashMap<(String, ServerEventType), Vec<u32>>`,
modelled as an association list with unique keys. -/
abbrev Subscriptions := List ((String × ServerEventType) × List Nat)

/-- Update the value stored under `key`, leaving other entries unchanged
(the effect of `HashMap::get_mut` followed by a mutation). -/
def updateEntry (subs : Subscriptions) (key : String × ServerEventType)
    (f : List Nat → List Nat) : Subscriptions :=
  subs.map (fun e => if e.1 = key then (e.1, f e.2) else e)

/-- The `AddSubscription` arm of `EventManager::run`
(src/daemon/event.rs:55-65): `entry(key).or_default()` then `push(client_id)`. -/
def addSubscription (subs : Subscriptions) (server_id : String)
    (event_type : ServerEventType) (client_id : Nat) : Subscriptions :=
  if subs.any (fun e => e.1 = (server_id, event_type)) then
    updateEntry subs (server_id, event_type) (fun l => l ++ [client_id])
  else
    subs ++ [((server_id, event_type), [client_id])]

/-- The `RemoveSubscription` arm of `EventManager::run`
(src/daemon/event.rs:66-76). The source runs
`subscriptions.retain(|id| id == &client_id)` on the entry for the key,
keeping exactly the elements equal to `client_id`. -/
def removeSubscription (subs : Subscriptions) (server_id : String)
    (event_type : ServerEventType) (client_id : Nat) : Subscriptions :=
  updateEntry subs (server_id, event_type) (fun l => l.filter (fun id => id == client_id))

/-- `EventManager::remove_all_subscriptions` (src/daemon/event.rs:86-92).
The source runs `subscriptions.retain(|id| id == &client_id)` on every value
of the table, keeping exactly the elements equal to `client_id`. -/
def removeAllSubscriptions (subs : Subscriptions) (client_id : Nat) : Subscriptions :=
  subs.map (fun e => (e.1, e.2.filter (fun id => id == client_id)))

/-- `OutputState` from src/daemon/mod.rs:52-65. Its doc comment states:
"Once a server has reached the state `OutputState::Errored` it cannot change
to another state by log output." -/
inductive OutputState
  | Unknown
  | Starting
  | Started
  | Errored
  | Stopping
  | Stopped
  deriving DecidableEq

/-- Whether `pat` occurs as a contiguous run inside `s`
(Rust `str::contains` with a literal pattern). -/
def containsSub (pat : List Char) : List Char → Bool
  | [] => pat.isEmpty
  | c :: rest => pat.isPrefixOf (c :: rest) || containsSub pat rest

/-- Rust `str::contains(pat)` on strings. -/
def containsStr (s pat : String) : Bool :=
  containsSub pat.data s.data

/-- Rust `str::starts_with(pat)` on strings. -/
def startsWithStr (s pat : String) : Bool :=
  pat.data.isPrefixOf s.data

/-- The per-line body of `BasicLogServiceHandler::run`
(src/daemon/basic_log.rs:84-137): given the current content of the shared
state cell and one stdout line, returns the new cell content and the event
raised (if any). The if/else-if chain is translated branch for branch. -/
def processLine (server_id : String) (state : OutputState) (line : String) :
    OutputState × Option ServerEvent :=
  if startsWithStr line "Loading libraries" then
    (OutputState.Starting, some (ServerEvent.serverStarting server_id))
  else if containsStr line "Done (" && containsStr line "s)! For help" then
    (OutputState.Started, some (ServerEvent.serverStarted server_id))
  else if containsStr line "Stopping the server" then
    (OutputState.Stopping, some (ServerEvent.serverStopping server_id))
  else if containsStr line "Closing Server" then
    (OutputState.Stopped, some (ServerEvent.serverStopped server_id))
  else if containsStr line "Failed to load eula.txt" then
    (OutputState.Errored, some (ServerEvent.serverFailed server_id "EULA not accepted"))
  else
    (state, none)

/-- The reader loop of `BasicLogServiceHandler::run` over a sequence of
successfully read stdout lines: threads the state cell through
`processLine` and collects the raised events in order. -/
def processLines (server_id : String) (state : OutputState) :
    List String → OutputState × List ServerEvent
  | [] => (state, [])
  | line :: rest =>
    let step := processLine server_id state line
    let tail := processLines server_id step.1 rest
    (tail.1, step.2.toList ++ tail.2)

/-- Outcome of one `Child::try_wait` poll (src/bin/mcmand.rs:736):
the process has exited (with `success()` and `code()` of its exit status),
is still running (`Ok(None)`), or the poll itself failed (`Err(_)`). -/
inductive ChildPoll
  | exited (success : Bool) (code : Option Int)
  | stillRunning
  | pollFailed
  deriving DecidableEq

/-- `ServerStatus` from src/lib.rs:74-94. -/
inductive ServerStatus
  | Unknown
  | Starting
  | Running
  | Updating
  | Down
  | Lockdown
  | Errored (code : Option Int)
  | Stopping
  deriving DecidableEq

/-- The unit record `DaemonServer` (src/bin/mcmand.rs:719-724). `process`
models the optional child handle by its current try_wait observation;
`statusCell` is the shared derived-state cell (field `status` in the
source, renamed to leave room for the method of the same name); `input` is
the stdin sink held inside the boxed `PaperServer` (src/daemon/paper.rs:18),
modelled by the list of lines written to it so far, when the sink is
present. -/
structure DaemonServer where
  process : Option ChildPoll
  statusCell : Option OutputState
  input : Option (List String)
  server_id : String
  deriving DecidableEq

/-- `DaemonServer::status` (src/bin/mcmand.rs:734-763), arm for arm:
absent child gives Down; an exited child gives Down on success and
Errored(code) otherwise; any other poll outcome reads the derived-state
cell (Unknown when the cell was never installed). -/
def DaemonServer.status (s : DaemonServer) : ServerStatus :=
  match s.process with
  | some child =>
    match child with
    | ChildPoll.exited true _ => ServerStatus.Down
    | ChildPoll.exited false code => ServerStatus.Errored code
    | _ =>
      match s.statusCell with
      | some st =>
        match st with
        | OutputState.Unknown => ServerStatus.Unknown
        | OutputState.Starting => ServerStatus.Starting
        | OutputState.Started => ServerStatus.Running
        | OutputState.Errored => ServerStatus.Errored none
        | OutputState.Stopped => ServerStatus.Down
        | OutputState.Stopping => ServerStatus.Stopping
      | none => ServerStatus.Unknown
  | none => ServerStatus.Down

/-- `DaemonServer::send_command` via `PaperServer::send_command`
(src/daemon/paper.rs:63-67): when the stdin sink is present, `writeln!`
appends the command as one line; when absent, the command is silently
dropped. -/
def DaemonServer.sendCommand (s : DaemonServer) (command : String) : DaemonServer :=
  match s.input with
  | some lines => { s with input := some (lines ++ [command]) }
  | none => s

/-- `DaemonServer::stop` (src/bin/mcmand.rs:773-780): when a child handle is
present, send the line `stop` and take the handle out of the record,
returning it; otherwise return none and change nothing. -/
def DaemonServer.stop (s : DaemonServer) : Option ChildPoll × DaemonServer :=
  if s.process.isSome then
    let s1 := s.sendCommand "stop"
    (s.process, { s1 with process := none })
  else
    (none, s)

/-- `EventManagerCmd` from src/daemon/event.rs:96-127. -/
inductive EventManagerCmd
  | DispatchEvent (server_id : String) (event : ServerEvent)
  | AddSubscription (server_id : String) (event_type : ServerEventType) (client_id : Nat)
  | RemoveSubscription (server_id : String) (event_type : ServerEventType) (client_id : Nat)
  | RemoveAllSubscriptions (client_id : Nat)
  deriving DecidableEq

/-- The send-and-cleanup step shared by the `IncomingCmd` and `SendEvent`
arms of `Daemon::start_thread` (src/bin/mcmand.rs:414-438). `senders` is the
key set of the dispatcher's sender table, `sendOk` the outcome of
`sender.send(..)`. Both arms leave the sender table unchanged and, on a
failed send only, post `RemoveAllSubscriptions { client_id }` to the event
manager; the returned pair is the table afterwards and the list of commands
posted. -/
def dispatcherSendCleanup (senders : List Nat) (client_id : Nat) (sendOk : Bool) :
    List Nat × List EventManagerCmd :=
  if sendOk then (senders, [])
  else (senders, [EventManagerCmd.RemoveAllSubscriptions client_id])

/-- `NewConnection` from src/ipc/mod.rs:118-129. -/
structure NewConnection where
  min_version : Option SemVer
  client_version : SemVer
  socket_path : String
  client_name : String
  deriving DecidableEq

/-- The responses the acceptor can frame to a fresh client, tagged by
variant (src/ipc/mod.rs `DaemonResponse::SetSender` and
`DaemonResponse::Version`). -/
inductive AcceptResponse
  | setSender
  | versionResp (version : SemVer)
  deriving DecidableEq

/-- The per-connection body of `main` (src/bin/mcmand.rs:99-138) after a
handshake has deserialized: `connectOk` is the outcome of
`IpcSender::connect(reply_address)`. Returns the ordered list of responses
sent to the client and whether the client was registered (inserted into the
sender table and given a command pump). The source sends `SetSender` and
`Version` first and only then evaluates `min_version`, dropping the
connection unregistered when the requirement is not met. -/
def handleHandshake (daemonVersion : SemVer) (conn : NewConnection)
    (connectOk : Bool) : List AcceptResponse × Bool :=
  if connectOk then
    let responses := [AcceptResponse.setSender, AcceptResponse.versionResp daemonVersion]
    match conn.min_version with
    | some mv => if verLt daemonVersion mv then (responses, false) else (responses, true)
    | none => (responses, true)
  else
    ([], false)

/-- Outcome of the up-to-date check in `PaperServerUpdater::update_server`
(src/ipc/update.rs:99-111). -/
inductive UpdateCheck
  | panicked
  | alreadyUpToDate
  | proceed
  deriving DecidableEq

/-- The up-to-date check of `PaperServerUpdater::update_server`
(src/ipc/update.rs:99-111), with the resolved target artifact version as
input: `current >= target && current.build.first().expect(..) >=
target.build.first().expect(..)`. Rust `&&` short-circuits, so the
`expect` calls (panics on an empty build list) run only when the version
comparison already succeeded. -/
def updateUpToDateCheck (current target : SemVer) : UpdateCheck :=
  if verGe current target then
    match current.build.head? with
    | none => UpdateCheck.panicked
    | some cb =>
      match target.build.head? with
      | none => UpdateCheck.panicked
      | some tb => if tb ≤ cb then UpdateCheck.alreadyUpToDate else UpdateCheck.proceed
  else
    UpdateCheck.proceed

/-- What the unit directory scan observes when it parses the text of a
candidate file (external TOML codec modelled at the value level): the text
fails to parse as `SimpleUnitConfig`, or it parses with unit table `u` and,
when a well-formed `server` table is present, that table too. -/
inductive TomlParse
  | malformed
  | simple (u : UnitConfig) (server : Option ServerConfig)
  deriving DecidableEq

/-- One entry produced by the recursive directory walk in
`DaemonConfig::create_servers` (src/config/mod.rs:77): the walk itself can
fail for an entry (`Err` arm, logged and skipped), or yields a path with its
file-ness, extension and content. -/
inductive DirEntry
  | walkError
  | entry (isFile : Bool) (ext : Option String) (content : TomlParse)
  deriving DecidableEq

/-- `HashMap::insert` on the unit map, as an association-list update. -/
def insertUnit (m : List (String × ServerUnitConfig)) (k : String)
    (v : ServerUnitConfig) : List (String × ServerUnitConfig) :=
  if m.any (fun e => e.1 = k) then m.map (fun e => if e.1 = k then (k, v) else e)
  else m ++ [(k, v)]

/-- The per-entry body of `DaemonConfig::create_servers`
(src/config/mod.rs:78-129). Walk errors are logged and skipped; non-files
and files without a `.toml` extension are skipped. For a `.toml` file the
content is parsed with `toml::from_str(..).unwrap()`: a parse failure is a
panic, modelled as `Except.error ()`. A parsed unit whose type is not
"server" is skipped; a "server" unit is re-parsed as `ServerUnitConfig`
(again `.unwrap()`); `create_server` (src/daemon/mod.rs:99-117) then accepts
only `type_name == "paper"` and anything else is dropped with a warning. -/
def scanEntry (m : List (String × ServerUnitConfig)) (e : DirEntry) :
    Except Unit (List (String × ServerUnitConfig)) :=
  match e with
  | DirEntry.walkError => Except.ok m
  | DirEntry.entry isF ext content =>
    if isF then
      match ext with
      | some ex =>
        if ex = "toml" then
          match content with
          | TomlParse.malformed => Except.error ()
          | TomlParse.simple u srv =>
            if u.unit_type = "server" then
              match srv with
              | none => Except.error ()
              | some sc =>
                if sc.type_name = "paper" then
                  Except.ok (insertUnit m u.id ⟨u, sc⟩)
                else
                  Except.ok m
            else
              Except.ok m
        else
          Except.ok m
      | none => Except.ok m
    else
      Except.ok m

/-- The fold of `scanEntry` over the walked entries, threading the unit
map; an `Except.error ()` is the panic aborting the scan (and with it
daemon startup, since `create_servers` runs on the main thread before the
accept loop). -/
def createServersFrom (m : List (String × ServerUnitConfig)) :
    List DirEntry → Except Unit (List (String × ServerUnitConfig))
  | [] => Except.ok m
  | e :: rest =>
    match scanEntry m e with
    | Except.error u => Except.error u
    | Except.ok m2 => createServersFrom m2 rest

/-- `DaemonConfig::create_servers` (src/config/mod.rs:74-133) over the
entries of the walked unit directories, starting from the empty map. -/
def create_servers (entries : List DirEntry) :
    Except Unit (List (String × ServerUnitConfig)) :=
  createServersFrom [] entries

/-- The unit file written by `Daemon::perform_installation`
(src/bin/mcmand.rs:611-624): `toml::to_string(&server_unit_config)` encodes
the `unit` and `server` tables, so the written file is a regular `.toml`
file whose content parses back to those tables (the TOML codec is an
external collaborator, modelled as faithful at the value level). -/
def encodeUnitFile (c : ServerUnitConfig) : DirEntry :=
  DirEntry.entry true (some "toml") (TomlParse.simple c.unit (some c.server))

/-- C1: evaluating the subscription-removal code on a concrete table.
Processing `RemoveAllSubscriptions { client_id := 1 }` on a set `[1, 2]`
keeps the evicted client 1 and removes client 2, and likewise
`RemoveSubscription` for one (unit_id, kind) key: the inverted `retain`
keeps exactly the entries equal to `client_id`, the opposite of the claimed
removal. -/
theorem c1_removal_keeps_evicted_client :
    removeAllSubscriptions [(("u", ServerEventType.ServerStarted), [1, 2])] 1
      = [(("u", ServerEventType.ServerStarted), [1])] ∧
    removeSubscription [(("u", ServerEventType.ServerStarted), [1, 2])]
        "u" ServerEventType.ServerStarted 1
      = [(("u", ServerEventType.ServerStarted), [1])] := by
  constructor <;> rfl

/-- C2 counterexample: a failing send to client 7 leaves the sender table
`[7]` unchanged, so the client's sender entry is not removed as the claim
states. -/
theorem c2_sender_entry_survives_failed_send :
    7 ∈ (dispatcherSendCleanup [7] 7 false).1 := by
  decide

/-- C2 (amended): for every dispatcher send, a successful send changes
nothing and posts nothing; a failed send leaves the sender table unchanged
and posts exactly `RemoveAllSubscriptions { client_id }` to the
subscription manager (the sender-table entry is never removed). -/
theorem c2_send_failure_cleanup (senders : List Nat) (client_id : Nat) :
    dispatcherSendCleanup senders client_id true = (senders, []) ∧
    dispatcherSendCleanup senders client_id false
      = (senders, [EventManagerCmd.RemoveAllSubscriptions client_id]) := by
  constructor <;> rfl

/-- C5: the derived-state cell is not terminal on Errored. With the cell at
`Errored`, processing the stdout line "Stopping the server" moves the cell
to `Stopping` (and raises `ServerStopping`), a log-derived transition out of
`Errored`, contradicting the claim and the `OutputState` doc comment. -/
theorem c5_errored_left_by_log_transition :
    processLines "u" OutputState.Errored ["Stopping the server"]
      = (OutputState.Stopping, [ServerEvent.serverStopping "u"]) := by
  rfl

/-- C6: a handshake whose `min_version` (9.0.0) exceeds the daemon's
version (0.1.0) is dropped without registering the client, but only after
`SetSender` and `Version` were already sent: the daemon does not drop
"without sending it any response" as claimed (and as the doc comment on
`DaemonResponse::Version` in src/ipc/mod.rs:74 states). -/
theorem c6_responses_sent_before_version_check :
    handleHandshake ⟨0, 1, 0, []⟩
      { min_version := some ⟨9, 0, 0, []⟩, client_version := ⟨0, 1, 0, []⟩,
        socket_path := "/tmp/x", client_name := "t" } true
      = ([AcceptResponse.setSender, AcceptResponse.versionResp ⟨0, 1, 0, []⟩], false) := by
  rfl

/-- C3: `status()` returns Down whenever the child handle is absent; for a
present child that has exited it returns Down on success and Errored(code)
otherwise; and for a still-running child it is exactly the projection of
the derived-state cell: Unknown to Unknown, Starting to Starting, Started
to Running, Errored to Errored(none), Stopping to Stopping, Stopped to
Down. -/
theorem c3_status_projection (s : DaemonServer) :
    (s.process = none → s.status = ServerStatus.Down) ∧
    (∀ ok code, s.process = some (ChildPoll.exited ok code) →
      s.status = if ok then ServerStatus.Down else ServerStatus.Errored code) ∧
    (∀ st, s.process = some ChildPoll.stillRunning → s.statusCell = some st →
      s.status =
        match st with
        | OutputState.Unknown => ServerStatus.Unknown
        | OutputState.Starting => ServerStatus.Starting
        | OutputState.Started => ServerStatus.Running
        | OutputState.Errored => ServerStatus.Errored none
        | OutputState.Stopping => ServerStatus.Stopping
        | OutputState.Stopped => ServerStatus.Down) := by
  refine ⟨?_, ?_, ?_⟩
  · intro h
    simp [DaemonServer.status, h]
  · intro ok code h
    cases ok <;> simp [DaemonServer.status, h]
  · intro st h1 h2
    cases st <;> simp [DaemonServer.status, h1, h2]

/-- C3 witness: a unit with a still-running child and the cell at Started
reports Running. -/
theorem c3_status_projection_witness :
    ({ process := some ChildPoll.stillRunning, statusCell := some OutputState.Started,
       input := none, server_id := "u" } : DaemonServer).status = ServerStatus.Running :=
  (c3_status_projection _).2.2 OutputState.Started rfl rfl

/-- C4: per stdout line at most one transition fires, by first match in the
fixed order: a line starting with "Loading libraries" sets Starting and
raises ServerStarting; otherwise a line containing both "Done (" and
"s)! For help" sets Started and raises ServerStarted; then "Stopping the
server" sets Stopping, "Closing Server" sets Stopped, "Failed to load
eula.txt" sets Errored and raises ServerFailed; a line matching none of
these leaves the state and raises no event. -/
theorem c4_line_to_transition (server_id : String) (st : OutputState) (line : String) :
    (startsWithStr line "Loading libraries" = true →
      processLine server_id st line
        = (OutputState.Starting, some (ServerEvent.serverStarting server_id))) ∧
    (startsWithStr line "Loading libraries" = false →
      (containsStr line "Done (" && containsStr line "s)! For help") = true →
      processLine server_id st line
        = (OutputState.Started, some (ServerEvent.serverStarted server_id))) ∧
    (startsWithStr line "Loading libraries" = false →
      (containsStr line "Done (" && containsStr line "s)! For help") = false →
      containsStr line "Stopping the server" = true →
      processLine server_id st line
        = (OutputState.Stopping, some (ServerEvent.serverStopping server_id))) ∧
    (startsWithStr line "Loading libraries" = false →
      (containsStr line "Done (" && containsStr line "s)! For help") = false →
      containsStr line "Stopping the server" = false →
      containsStr line "Closing Server" = true →
      processLine server_id st line
        = (OutputState.Stopped, some (ServerEvent.serverStopped server_id))) ∧
    (startsWithStr line "Loading libraries" = false →
      (containsStr line "Done (" && containsStr line "s)! For help") = false →
      containsStr line "Stopping the server" = false →
      containsStr line "Closing Server" = false →
      containsStr line "Failed to load eula.txt" = true →
      processLine server_id st line
        = (OutputState.Errored,
           some (ServerEvent.serverFailed server_id "EULA not accepted"))) ∧
    (startsWithStr line "Loading libraries" = false →
      (containsStr line "Done (" && containsStr line "s)! For help") = false →
      containsStr line "Stopping the server" = false →
      containsStr line "Closing Server" = false →
      containsStr line "Failed to load eula.txt" = false →
      processLine server_id st line = (st, none)) := by
  refine ⟨?_, ?_, ?_, ?_, ?_, ?_⟩ <;> intros <;> simp_all [processLine]

/-- C4 witness: the scenario line from the specification takes the cell
from Starting to Started and raises exactly ServerStarted. -/
theorem c4_line_to_transition_witness :
    processLine "u1" OutputState.Starting "[12:00] Done (4.2s)! For help, type..."
      = (OutputState.Started, some (ServerEvent.serverStarted "u1")) :=
  (c4_line_to_transition "u1" OutputState.Starting
      "[12:00] Done (4.2s)! For help, type...").2.1 (by decide) (by decide)

/-- C7: when the current version and the resolved target version both carry
a build identifier, the up-to-date check fails with AlreadyUpToDate exactly
when the current version dominates the target version and the first build
identifier of the current version dominates that of the target; and there
is an input lacking a build identifier on which the check panics. -/
theorem c7_up_to_date_check (c t : SemVer) (cb tb : Nat) (cbs tbs : List Nat)
    (hc : c.build = cb :: cbs) (ht : t.build = tb :: tbs) :
    (updateUpToDateCheck c t = UpdateCheck.alreadyUpToDate ↔
      verGe c t = true ∧ tb ≤ cb) ∧
    (∃ c2 t2 : SemVer, c2.build = [] ∧
      updateUpToDateCheck c2 t2 = UpdateCheck.panicked) := by
  constructor
  · unfold updateUpToDateCheck
    rw [hc, ht]
    cases hge : verGe c t
    · simp [hge]
    · by_cases hb : tb ≤ cb <;> simp [hge, hb]
  · exact ⟨⟨1, 0, 0, []⟩, ⟨1, 0, 0, []⟩, rfl, rfl⟩

/-- C7 witness: a unit at 1.20.1+196 with the repository also resolving to
1.20.1+196 hits AlreadyUpToDate. -/
theorem c7_up_to_date_check_witness :
    updateUpToDateCheck ⟨1, 20, 1, [196]⟩ ⟨1, 20, 1, [196]⟩
      = UpdateCheck.alreadyUpToDate :=
  ((c7_up_to_date_check ⟨1, 20, 1, [196]⟩ ⟨1, 20, 1, [196]⟩ 196 196 [] []
      rfl rfl).1).mpr ⟨by decide, by decide⟩

/-- C8 counterexample: with a parse-failing .toml candidate first, the scan
aborts with a panic instead of skipping it, and the well-formed unit file
behind it is never loaded — both for a file that fails the stage-1
`SimpleUnitConfig` parse and for a file that passes stage 1 with type
"server" but fails the stage-2 `ServerUnitConfig` re-parse; the same
well-formed file alone loads fine. -/
theorem c8_parse_failure_aborts_scan :
    create_servers
        [DirEntry.entry true (some "toml") TomlParse.malformed,
         encodeUnitFile ⟨⟨"u1", "server"⟩,
           ⟨"srv", "/tmp/u1", "paper", "paper_1.20.1-196.jar", ⟨1, 20, 1, [196]⟩, 10⟩⟩]
      = Except.error () ∧
    create_servers
        [DirEntry.entry true (some "toml") (TomlParse.simple ⟨"u2", "server"⟩ none),
         encodeUnitFile ⟨⟨"u1", "server"⟩,
           ⟨"srv", "/tmp/u1", "paper", "paper_1.20.1-196.jar", ⟨1, 20, 1, [196]⟩, 10⟩⟩]
      = Except.error () ∧
    create_servers
        [encodeUnitFile ⟨⟨"u1", "server"⟩,
           ⟨"srv", "/tmp/u1", "paper", "paper_1.20.1-196.jar", ⟨1, 20, 1, [196]⟩, 10⟩⟩]
      = Except.ok [("u1", ⟨⟨"u1", "server"⟩,
           ⟨"srv", "/tmp/u1", "paper", "paper_1.20.1-196.jar", ⟨1, 20, 1, [196]⟩, 10⟩⟩)] := by
  refine ⟨rfl, rfl, rfl⟩

/-- C8 (amended): directory-walk errors, non-file entries and files without
a .toml extension are skipped and the scan continues, but a .toml candidate
whose content fails to parse panics and aborts the whole scan (terminating
daemon startup) instead of being skipped with a warning — both when the
stage-1 `SimpleUnitConfig` parse fails (the unwrap at config/mod.rs:87) and
when the unit has type "server" but the stage-2 `ServerUnitConfig` re-parse
fails (the unwrap at config/mod.rs:96). -/
theorem c8_scan_skip_behavior (rest : List DirEntry)
    (m : List (String × ServerUnitConfig)) (isF : Bool) (ext : Option String)
    (content : TomlParse) (u : UnitConfig) :
    (createServersFrom m (DirEntry.walkError :: rest) = createServersFrom m rest) ∧
    (createServersFrom m (DirEntry.entry false ext content :: rest)
      = createServersFrom m rest) ∧
    (ext ≠ some "toml" →
      createServersFrom m (DirEntry.entry isF ext content :: rest)
        = createServersFrom m rest) ∧
    (createServersFrom m (DirEntry.entry true (some "toml") TomlParse.malformed :: rest)
      = Except.error ()) ∧
    (u.unit_type = "server" →
      createServersFrom m
          (DirEntry.entry true (some "toml") (TomlParse.simple u none) :: rest)
        = Except.error ()) := by
  refine ⟨rfl, rfl, ?_, rfl, ?_⟩
  · intro h
    cases isF <;> cases ext <;> simp_all [createServersFrom, scanEntry]
  · intro h
    simp [createServersFrom, scanEntry, h]

/-- C8 witness: a file with a non-toml extension and unparsable content is
ignored and the scan succeeds with an empty unit map, while a .toml file of
unit type "server" whose server table is missing aborts the scan. -/
theorem c8_scan_skip_behavior_witness :
    create_servers [DirEntry.entry true (some "txt") TomlParse.malformed]
      = Except.ok [] ∧
    create_servers [DirEntry.entry true (some "toml")
        (TomlParse.simple ⟨"u2", "server"⟩ none)]
      = Except.error () :=
  ⟨(c8_scan_skip_behavior [] [] true (some "txt") TomlParse.malformed
      ⟨"u2", "server"⟩).2.2.1 (by decide),
   (c8_scan_skip_behavior [] [] true (some "toml") TomlParse.malformed
      ⟨"u2", "server"⟩).2.2.2.2 rfl⟩

/-- C9 counterexample: a ServerUnitConfig whose server type is "vanilla"
(unit type "server") written to a unit file and reloaded via the scan
yields an empty unit map, not a config equal to the original, because
`create_server` drops every type but "paper". -/
theorem c9_roundtrip_counterexample :
    create_servers [encodeUnitFile ⟨⟨"v1", "server"⟩,
        ⟨"srv", "/tmp/v1", "vanilla", "server.jar", ⟨1, 20, 1, []⟩, 10⟩⟩]
      = Except.ok [] ∧
    (Except.ok [] : Except Unit (List (String × ServerUnitConfig)))
      ≠ Except.ok [("v1", ⟨⟨"v1", "server"⟩,
        ⟨"srv", "/tmp/v1", "vanilla", "server.jar", ⟨1, 20, 1, []⟩, 10⟩⟩)] := by
  constructor
  · rfl
  · intro h
    exact absurd (Except.ok.inj h) (by decide)

/-- C9 (amended): for every ServerUnitConfig whose unit type is "server"
and whose server type is "paper" — the only form the install pipeline
writes — writing it to a unit file and reloading via the directory scan
yields exactly the original config keyed by its unit id. -/
theorem c9_unit_file_roundtrip (c : ServerUnitConfig)
    (hu : c.unit.unit_type = "server") (hs : c.server.type_name = "paper") :
    create_servers [encodeUnitFile c] = Except.ok [(c.unit.id, c)] := by
  obtain ⟨u, sv⟩ := c
  simp_all [create_servers, createServersFrom, scanEntry, encodeUnitFile, insertUnit]

/-- C9 witness: the spec's concrete install scenario config round-trips. -/
theorem c9_unit_file_roundtrip_witness :
    create_servers [encodeUnitFile ⟨⟨"u1", "server"⟩,
        ⟨"A Minecraft server", "/tmp/u1", "paper", "paper_1.20.1-196.jar",
         ⟨1, 20, 1, [196]⟩, 10⟩⟩]
      = Except.ok [("u1", ⟨⟨"u1", "server"⟩,
        ⟨"A Minecraft server", "/tmp/u1", "paper", "paper_1.20.1-196.jar",
         ⟨1, 20, 1, [196]⟩, 10⟩⟩)] :=
  c9_unit_file_roundtrip _ rfl rfl

/-- C10: when a child handle is present (and the stdin sink with it),
`stop()` returns the child handle, writes the line "stop" to stdin, and
removes the handle from the record, so a subsequent `status()` returns
Down whatever the derived-state cell holds; with no child present,
`stop()` returns none and changes nothing. -/
theorem c10_stop_semantics (s : DaemonServer) :
    (∀ child lines, s.process = some child → s.input = some lines →
      s.stop.1 = some child ∧
      s.stop.2.process = none ∧
      s.stop.2.input = some (lines ++ ["stop"]) ∧
      ∀ cell : Option OutputState,
        ({ s.stop.2 with statusCell := cell }).status = ServerStatus.Down) ∧
    (s.process = none → s.stop = (none, s)) := by
  constructor
  · intro child lines h1 h2
    refine ⟨?_, ?_, ?_, ?_⟩ <;>
      simp [DaemonServer.stop, DaemonServer.sendCommand, DaemonServer.status, h1, h2]
  · intro h
    simp [DaemonServer.stop, h]

/-- C10 witness: stopping a running unit whose cell still reads Started
takes the child handle out and the unit then reports Down. -/
theorem c10_stop_semantics_witness :
    (({ process := some ChildPoll.stillRunning, statusCell := some OutputState.Started,
        input := some [], server_id := "u" } : DaemonServer).stop).2.process = none :=
  ((c10_stop_semantics _).1 ChildPoll.stillRunning [] rfl rfl).2.1

end Mcman
